import Mathlib

/-!
# Verification of the GA4 client-id / session-id extractor

Shallow embedding of `src/ga4-id-extractor.js`.

Modelling conventions:

* The browser cookie store (`document.cookie`) is modelled as a partial map
  from cookie names to raw (still percent-encoded) values.  The regex lookup
  in `readCookie` is modelled as a lookup by name; note that the JS regex
  `([^;]+)` cannot match an empty value and raw values in `document.cookie`
  cannot contain `;`, so a present-but-empty value is indistinguishable from
  an absent cookie, which the model reproduces (decoding `""` yields `""`,
  the same as absence).
* JavaScript strings are Lean `String`s; string truthiness (`if (v)`,
  `v || ''`) is emptiness testing.
* A thrown exception is an `Except.error ()` value; `decodeURIComponent`
  (which throws `URIError` on malformed percent-encodings) is the only
  throwing primitive, modelled as `Option`-returning.
* A promise that only ever resolves is `Option (Nat × outcome)`: `none`
  means it never settles, `some (t, o)` means it settles at abstract time
  `t` with outcome `o`.  An outcome is `Except Unit String`: `.ok` is a
  resolution, `.error` a rejection.
-/

set_option autoImplicit false
set_option linter.unusedVariables false

namespace Ga4

/-! ## Percent decoding (`decodeURIComponent`)

ECMA-262 `Decode` with an empty reserved set: a `%` must be followed by two
hex digits; a byte with the high bit set starts a strict UTF-8 sequence
(correct continuation bytes, no overlong forms, no surrogates, max
`U+10FFFF`), otherwise a `URIError` is thrown, modelled as `none`. -/

def hexVal (c : Char) : Option Nat :=
  let n := c.toNat
  if 48 ≤ n && n ≤ 57 then some (n - 48)
  else if 65 ≤ n && n ≤ 70 then some (n - 55)
  else if 97 ≤ n && n ≤ 102 then some (n - 87)
  else none

/-- A UTF-8 continuation byte: `10xxxxxx`. -/
def contByte (b : Nat) : Bool := 128 ≤ b && b ≤ 191

def percentDecodeAux : List Char → Option (List Char)
  | [] => some []
  | '%' :: h1 :: h2 :: rest =>
    match hexVal h1, hexVal h2 with
    | some d1, some d2 =>
      let b1 := d1 * 16 + d2
      if b1 < 128 then
        (fun l => Char.ofNat b1 :: l) <$> percentDecodeAux rest
      else if 194 ≤ b1 && b1 ≤ 223 then
        match rest with
        | '%' :: h3 :: h4 :: rest2 =>
          match hexVal h3, hexVal h4 with
          | some d3, some d4 =>
            let b2 := d3 * 16 + d4
            if contByte b2 then
              (fun l => Char.ofNat ((b1 - 192) * 64 + (b2 - 128)) :: l) <$>
                percentDecodeAux rest2
            else none
          | _, _ => none
        | _ => none
      else if 224 ≤ b1 && b1 ≤ 239 then
        match rest with
        | '%' :: h3 :: h4 :: '%' :: h5 :: h6 :: rest2 =>
          match hexVal h3, hexVal h4, hexVal h5, hexVal h6 with
          | some d3, some d4, some d5, some d6 =>
            let b2 := d3 * 16 + d4
            let b3 := d5 * 16 + d6
            if contByte b2 && contByte b3 &&
                (b1 != 224 || 160 ≤ b2) && (b1 != 237 || b2 ≤ 159) then
              (fun l => Char.ofNat ((b1 - 224) * 4096 + (b2 - 128) * 64 + (b3 - 128)) :: l) <$>
                percentDecodeAux rest2
            else none
          | _, _, _, _ => none
        | _ => none
      else if 240 ≤ b1 && b1 ≤ 244 then
        match rest with
        | '%' :: h3 :: h4 :: '%' :: h5 :: h6 :: '%' :: h7 :: h8 :: rest2 =>
          match hexVal h3, hexVal h4, hexVal h5, hexVal h6, hexVal h7, hexVal h8 with
          | some d3, some d4, some d5, some d6, some d7, some d8 =>
            let b2 := d3 * 16 + d4
            let b3 := d5 * 16 + d6
            let b4 := d7 * 16 + d8
            if contByte b2 && contByte b3 && contByte b4 &&
                (b1 != 240 || 144 ≤ b2) && (b1 != 244 || b2 ≤ 143) then
              (fun l => Char.ofNat
                  ((b1 - 240) * 262144 + (b2 - 128) * 4096 + (b3 - 128) * 64 + (b4 - 128)) :: l) <$>
                percentDecodeAux rest2
            else none
          | _, _, _, _, _, _ => none
        | _ => none
      else none
    | _, _ => none
  | '%' :: _ => none
  | c :: rest => (fun l => c :: l) <$> percentDecodeAux rest

/-- `decodeURIComponent`; `none` models a thrown `URIError`. -/
def decodeURIComponent (s : String) : Option String :=
  (fun l => String.mk l) <$> percentDecodeAux s.data

/-! ## Cookie store and `readCookie` -/

/-- The ambient `document.cookie` state, as a partial map from cookie name to
raw (percent-encoded) value. -/
def CookieStore : Type := String → Option String

/-- `readCookie(name)` (src/ga4-id-extractor.js:7-10): look the cookie up by
name and percent-decode it; an absent cookie gives `""`.  `Except.error ()`
models the `URIError` that `decodeURIComponent` throws on a malformed value
and that `readCookie` does not catch. -/
def readCookie (name : String) (store : CookieStore) : Except Unit String :=
  match store name with
  | none => Except.ok ""
  | some raw =>
    match decodeURIComponent raw with
    | some v => Except.ok v
    | none => Except.error ()

/-! ## Dot-splitting (`v.split('.')`) -/

def splitDotAux : List Char → List Char → List String
  | [], acc => [String.mk acc.reverse]
  | '.' :: rest, acc => String.mk acc.reverse :: splitDotAux rest []
  | c :: rest, acc => splitDotAux rest (c :: acc)

/-- JavaScript `v.split('.')`. -/
def splitDot (s : String) : List String := splitDotAux s.data []

/-! ## Cookie-derived accessors -/

/-- `getClientIdFromCookie()` (src/ga4-id-extractor.js:13-18): read `_ga`,
split on `.`, and with at least 4 fields return fields 2 and 3 joined by a
dot; otherwise `""`. -/
def getClientIdFromCookie (store : CookieStore) : Except Unit String :=
  match readCookie "_ga" store with
  | Except.error e => Except.error e
  | Except.ok v =>
    if v = "" then Except.ok ""
    else if 4 ≤ (splitDot v).length then
      Except.ok ((splitDot v)[2]! ++ "." ++ (splitDot v)[3]!)
    else Except.ok ""

/-- The `replace` call on the measurement id, whose pattern is the regex
literal matching `G-`: remove the FIRST occurrence of the substring `G-`
anywhere in the string (the regex is unanchored and has no `g` flag). -/
def removeFirstGDash : List Char → List Char
  | [] => []
  | 'G' :: '-' :: rest => rest
  | c :: rest => c :: removeFirstGDash rest

/-- The cookie name built by `getSessionIdFromCookie`
(src/ga4-id-extractor.js:22): `_ga_` followed by the measurement id with its
first `G-` occurrence removed. -/
def sessionCookieName (measurementId : String) : String :=
  "_ga_" ++ String.mk (removeFirstGDash measurementId.data)

/-- The cookie name as the spec describes it ("stripping a literal `G-`
prefix from the measurement id"): drop `G-` only when it is a prefix. -/
def sessionCookieNameSpec (measurementId : String) : String :=
  "_ga_" ++
    (match measurementId.data with
     | 'G' :: '-' :: rest => String.mk rest
     | _ => measurementId)

/-- `getSessionIdFromCookie(measurementId)` (src/ga4-id-extractor.js:21-28):
read the `_ga_<id>` cookie, split on `.`, and with at least 3 fields return
field 2; otherwise `""`. -/
def getSessionIdFromCookie (store : CookieStore) (measurementId : String) :
    Except Unit String :=
  match readCookie (sessionCookieName measurementId) store with
  | Except.error e => Except.error e
  | Except.ok v =>
    if v = "" then Except.ok ""
    else if 3 ≤ (splitDot v).length then Except.ok (splitDot v)[2]!
    else Except.ok ""

/-! ## Ambient globals and the gtag wrappers -/

/-- How the ambient `gtag('get', id, prop, cb)` call behaves for one
property: throw synchronously, invoke the callback once after `delay`
time units with `value`, or never invoke it. -/
inductive GtagBehavior : Type where
  | throws : GtagBehavior
  | callback (delay : Nat) (value : String) : GtagBehavior
  | never : GtagBehavior
deriving DecidableEq

/-- The ambient browser globals the module reads: whether
`typeof window.gtag === 'function'`, whether `window.google_tag_manager`
is defined, and how `gtag('get', …)` behaves for each property. -/
structure Env : Type where
  gtagIsFunction : Bool
  gtmDefined : Bool
  clientIdBehavior : GtagBehavior
  sessionIdBehavior : GtagBehavior

/-- `isGtagAvailable(measurementId)` (src/ga4-id-extractor.js:31-35): the
truth value of `typeof window.gtag === 'function' &&
typeof window.google_tag_manager !== 'undefined' && measurementId`
(string truthiness is non-emptiness). -/
def isGtagAvailable (env : Env) (measurementId : String) : Bool :=
  env.gtagIsFunction && env.gtmDefined && measurementId != ""

/-- The promise built by the two gtag wrappers
(src/ga4-id-extractor.js:38-63): if the `gtag` call throws synchronously the
`catch` warns and resolves `""` immediately; if the callback fires at time
`d` with `v` the promise resolves `v || ''` (for strings, `v` itself); if
the callback never fires the promise never settles.  It never rejects. -/
def gtagGetPromise (behavior : GtagBehavior) : Option (Nat × Except Unit String) :=
  match behavior with
  | GtagBehavior.throws => some (0, Except.ok "")
  | GtagBehavior.callback d v => some (d, Except.ok (if v = "" then "" else v))
  | GtagBehavior.never => none

/-- `getClientIdFromGtag(measurementId)` (src/ga4-id-extractor.js:38-49). -/
def getClientIdFromGtag (env : Env) (measurementId : String) :
    Option (Nat × Except Unit String) :=
  gtagGetPromise env.clientIdBehavior

/-- `getSessionIdFromGtag(measurementId)` (src/ga4-id-extractor.js:52-63). -/
def getSessionIdFromGtag (env : Env) (measurementId : String) :
    Option (Nat × Except Unit String) :=
  gtagGetPromise env.sessionIdBehavior

/-! ## The timeout race and the per-identifier resolvers -/

/-- `Promise.race([p, new Promise(resolve => setTimeout(() => resolve(''),
timeout))])` (src/ga4-id-extractor.js:70-73): the timer branch always
settles at `timeout` with `""`; whichever settles first wins (a tie goes to
`p`, listed first). -/
def raceTimeout (p : Option (Nat × Except Unit String)) (timeout : Nat) :
    Nat × Except Unit String :=
  match p with
  | none => (timeout, Except.ok "")
  | some (t, o) => if t ≤ timeout then (t, o) else (timeout, Except.ok "")

/-- `getClientId(measurementId, timeout = 2000)`
(src/ga4-id-extractor.js:66-85), as the settle time and outcome of the
promise the `async` function returns: when gtag is available, await the
race; a truthy (non-empty) resolution is returned as is, an empty one falls
through, and a rejection is caught (warn) and falls through; the fallback —
also taken directly when gtag is unavailable — is `getClientIdFromCookie()`,
whose exception (if any) the `async` function turns into a rejection. -/
def getClientId (env : Env) (store : CookieStore) (measurementId : String)
    (timeout : Nat) : Nat × Except Unit String :=
  if isGtagAvailable env measurementId then
    match raceTimeout (getClientIdFromGtag env measurementId) timeout with
    | (t, Except.ok v) =>
      if v = "" then (t, getClientIdFromCookie store) else (t, Except.ok v)
    | (t, Except.error _) => (t, getClientIdFromCookie store)
  else (0, getClientIdFromCookie store)

/-- `getSessionId(measurementId, timeout = 2000)`
(src/ga4-id-extractor.js:88-107): same shape as `getClientId` with the
session wrapper and the session cookie accessor. -/
def getSessionId (env : Env) (store : CookieStore) (measurementId : String)
    (timeout : Nat) : Nat × Except Unit String :=
  if isGtagAvailable env measurementId then
    match raceTimeout (getSessionIdFromGtag env measurementId) timeout with
    | (t, Except.ok v) =>
      if v = "" then (t, getSessionIdFromCookie store measurementId)
      else (t, Except.ok v)
    | (t, Except.error _) => (t, getSessionIdFromCookie store measurementId)
  else (0, getSessionIdFromCookie store measurementId)

/-! ## Combined accessors -/

/-- The per-identifier `source` tags of the combined result
(src/ga4-id-extractor.js:119-122). -/
structure SourceTags : Type where
  clientId : String
  sessionId : String
deriving DecidableEq

/-- The record returned by the combined accessors
(src/ga4-id-extractor.js:116-123 and 128-135). -/
structure Identifiers : Type where
  clientId : String
  sessionId : String
  source : SourceTags
deriving DecidableEq

/-- `getGA4Identifiers(measurementId, timeout = 2000)`
(src/ga4-id-extractor.js:110-124): `Promise.all` of the two resolvers —
settling at the later of the two on success, rejecting at the first
rejection otherwise — then the record with the post-hoc `source` tags:
`value ? (isGtagAvailable(id) ? 'gtag-api' : 'cookie') : 'not-found'`. -/
def getGA4Identifiers (env : Env) (store : CookieStore) (measurementId : String)
    (timeout : Nat) : Nat × Except Unit Identifiers :=
  match getClientId env store measurementId timeout,
        getSessionId env store measurementId timeout with
  | (tc, Except.ok c), (ts, Except.ok s) =>
    (max tc ts, Except.ok
      { clientId := c
        sessionId := s
        source :=
          { clientId :=
              if c = "" then "not-found"
              else if isGtagAvailable env measurementId then "gtag-api" else "cookie"
            sessionId :=
              if s = "" then "not-found"
              else if isGtagAvailable env measurementId then "gtag-api" else "cookie" } })
  | (tc, Except.error e), (_, Except.ok _) => (tc, Except.error e)
  | (_, Except.ok _), (ts, Except.error e) => (ts, Except.error e)
  | (tc, Except.error e), (ts, Except.error e2) =>
    (min tc ts, Except.error (if tc ≤ ts then e else e2))

/-- `getGA4IdentifiersSync(measurementId)` (src/ga4-id-extractor.js:127-136):
a plain synchronous function of the cookie store only; it evaluates the
object literal in source order, reading each cookie twice (once for the
value, once for the tag), and never touches `env`. -/
def getGA4IdentifiersSync (env : Env) (store : CookieStore)
    (measurementId : String) : Except Unit Identifiers :=
  match getClientIdFromCookie store with
  | Except.error e => Except.error e
  | Except.ok c =>
    match getSessionIdFromCookie store measurementId with
    | Except.error e => Except.error e
    | Except.ok s =>
      match getClientIdFromCookie store with
      | Except.error e => Except.error e
      | Except.ok c2 =>
        match getSessionIdFromCookie store measurementId with
        | Except.error e => Except.error e
        | Except.ok s2 =>
          Except.ok
            { clientId := c
              sessionId := s
              source :=
                { clientId := if c2 = "" then "not-found" else "cookie"
                  sessionId := if s2 = "" then "not-found" else "cookie" } }

/-! ## Concrete fixtures used by witnesses and counterexamples -/

/-- A cookie store holding the spec's example cookies. -/
def cstoreEx : CookieStore := fun n =>
  if n = "_ga" then some "GA1.2.1234567890.1111111111"
  else if n = "_ga_ABCDEF1234" then some "GS1.1.9988.5"
  else none

/-- A store whose `_ga` cookie has too few dot-fields. -/
def cstoreShort : CookieStore := fun n =>
  if n = "_ga" then some "GA1.2" else none

/-- A store with a malformed (percent-undecodable) cookie value. -/
def cstoreBad : CookieStore := fun n =>
  if n = "x" then some "%" else none

/-- A store with a validly percent-encoded cookie value. -/
def cstoreEnc : CookieStore := fun n =>
  if n = "y" then some "a%20b" else none

/-- A store holding only the cookie named by removing the interior `G-`
from the measurement id `XG-ABC`. -/
def cstoreC5 : CookieStore := fun n =>
  if n = "_ga_XABC" then some "GS1.1.9988.5" else none

/-- An empty cookie store. -/
def cstoreEmpty : CookieStore := fun _ => none

def envUnavailable : Env :=
  Env.mk false true GtagBehavior.never GtagBehavior.never

def envLive : Env :=
  Env.mk true true (GtagBehavior.callback 10 "cid123") (GtagBehavior.callback 10 "sid456")

def envEmptyCb : Env :=
  Env.mk true true (GtagBehavior.callback 10 "") (GtagBehavior.callback 10 "")

def envNever : Env :=
  Env.mk true true GtagBehavior.never GtagBehavior.never

def envThrows : Env :=
  Env.mk true true GtagBehavior.throws GtagBehavior.throws

/-- The combined result of a fully live run against `envLive`. -/
def identsLive : Identifiers :=
  { clientId := "cid123", sessionId := "sid456",
    source := { clientId := "gtag-api", sessionId := "gtag-api" } }

/-- The combined result of a sync (cookie-only) run against `cstoreEx`. -/
def identsSync : Identifiers :=
  { clientId := "1234567890.1111111111", sessionId := "9988",
    source := { clientId := "cookie", sessionId := "cookie" } }

/-! ## Theorems -/

/-- C6: `getClientIdFromCookie` reads the `_ga` cookie, splits its value on
`.`, and when there are at least 4 dot-separated fields returns the fields
at indices 2 and 3 joined by `.`; it returns the empty string when the
cookie is absent or has fewer than 4 fields. -/
theorem getClientIdFromCookie_spec (store : CookieStore) :
    (store "_ga" = none → getClientIdFromCookie store = Except.ok "") ∧
    (∀ v, readCookie "_ga" store = Except.ok v →
      getClientIdFromCookie store =
        Except.ok (if 4 ≤ (splitDot v).length
          then (splitDot v)[2]! ++ "." ++ (splitDot v)[3]! else "")) := by
  constructor
  · intro h
    simp [getClientIdFromCookie, readCookie, h]
  · intro v hv
    unfold getClientIdFromCookie
    rw [hv]
    show (if v = "" then Except.ok ""
      else if 4 ≤ (splitDot v).length then
        Except.ok ((splitDot v)[2]! ++ "." ++ (splitDot v)[3]!)
      else Except.ok "") = _
    by_cases h0 : v = ""
    · subst h0
      rfl
    · rw [if_neg h0]
      split_ifs <;> rfl

/-- C6 witness: the `_ga` value `GA1.2.1234567890.1111111111` yields
`1234567890.1111111111`; the too-short value `GA1.2` and an absent cookie
yield `""`. -/
theorem getClientIdFromCookie_spec_witness :
    getClientIdFromCookie cstoreEx = Except.ok "1234567890.1111111111" ∧
    getClientIdFromCookie cstoreShort = Except.ok "" ∧
    getClientIdFromCookie cstoreEmpty = Except.ok "" :=
  ⟨((getClientIdFromCookie_spec cstoreEx).2 "GA1.2.1234567890.1111111111" rfl).trans rfl,
   ((getClientIdFromCookie_spec cstoreShort).2 "GA1.2" rfl).trans rfl,
   (getClientIdFromCookie_spec cstoreEmpty).1 rfl⟩

/-- C7 counterexample: a raw cookie value `%` is a malformed
percent-encoding, so `decodeURIComponent` throws a `URIError`, which
`readCookie` does not catch — contradicting the claim that `readCookie`
never throws. -/
theorem readCookie_throws_counterexample :
    readCookie "x" cstoreBad = Except.error () := rfl

/-- C7 (amended): `readCookie` returns the empty string when the named
cookie is absent and the percent-decoded value when the raw value decodes;
but when the raw value is a malformed percent-encoding it propagates the
`URIError` thrown by `decodeURIComponent` rather than returning. -/
theorem readCookie_spec (name : String) (store : CookieStore) :
    (store name = none → readCookie name store = Except.ok "") ∧
    (∀ raw d, store name = some raw → decodeURIComponent raw = some d →
      readCookie name store = Except.ok d) ∧
    (∀ raw, store name = some raw → decodeURIComponent raw = none →
      readCookie name store = Except.error ()) := by
  refine ⟨fun h => ?_, fun raw d h hd => ?_, fun raw h hd => ?_⟩
  · simp [readCookie, h]
  · simp [readCookie, h, hd]
  · simp [readCookie, h, hd]

/-- C7 witness: absent cookie gives `""`, the encoded value `a%20b`
decodes to `a b`, and the malformed value `%` throws. -/
theorem readCookie_spec_witness :
    readCookie "z" cstoreEnc = Except.ok "" ∧
    readCookie "y" cstoreEnc = Except.ok "a b" ∧
    readCookie "x" cstoreBad = Except.error () :=
  ⟨(readCookie_spec "z" cstoreEnc).1 rfl,
   (readCookie_spec "y" cstoreEnc).2.1 "a%20b" "a b" rfl rfl,
   (readCookie_spec "x" cstoreBad).2.2 "%" rfl rfl⟩

/-- C5 counterexample: for measurement id `XG-ABC` the code does not strip
a literal `G-` prefix (there is none to strip) but removes the interior
`G-`, reading cookie `_ga_XABC` — present in `cstoreC5` and yielding
`9988` — whereas the name a literal prefix strip would build, `_ga_XG-ABC`,
names an absent cookie. -/
theorem sessionCookieName_not_prefix_strip :
    sessionCookieName "XG-ABC" = "_ga_XABC" ∧
    sessionCookieNameSpec "XG-ABC" = "_ga_XG-ABC" ∧
    getSessionIdFromCookie cstoreC5 "XG-ABC" = Except.ok "9988" ∧
    readCookie (sessionCookieNameSpec "XG-ABC") cstoreC5 = Except.ok "" :=
  ⟨rfl, rfl, rfl, rfl⟩

/-- C5 (amended): `getSessionIdFromCookie` builds the cookie name by
removing the first occurrence of the literal substring `G-` from the
measurement id — which strips a `G-` prefix whenever the id starts with
`G-` — and prepending `_ga_`; it reads that cookie, splits the value on
`.`, and returns the field at index 2 when there are at least 3 fields,
the empty string otherwise. -/
theorem getSessionIdFromCookie_spec (store : CookieStore) (m : String) :
    (store (sessionCookieName m) = none →
      getSessionIdFromCookie store m = Except.ok "") ∧
    (∀ rest, m.data = 'G' :: '-' :: rest →
      sessionCookieName m = "_ga_" ++ String.mk rest) ∧
    (∀ v, readCookie (sessionCookieName m) store = Except.ok v →
      getSessionIdFromCookie store m =
        Except.ok (if 3 ≤ (splitDot v).length then (splitDot v)[2]! else "")) := by
  refine ⟨fun h => ?_, fun rest h => ?_, fun v hv => ?_⟩
  · simp [getSessionIdFromCookie, readCookie, h]
  · simp [sessionCookieName, h, removeFirstGDash]
  · unfold getSessionIdFromCookie
    rw [hv]
    show (if v = "" then Except.ok ""
      else if 3 ≤ (splitDot v).length then Except.ok (splitDot v)[2]!
      else Except.ok "") = _
    by_cases h0 : v = ""
    · subst h0
      rfl
    · rw [if_neg h0]
      split_ifs <;> rfl

/-- C5 witness: measurement id `G-ABCDEF1234` yields cookie name
`_ga_ABCDEF1234`, whose example value `GS1.1.9988.5` yields `9988`. -/
theorem getSessionIdFromCookie_spec_witness :
    sessionCookieName "G-ABCDEF1234" = "_ga_ABCDEF1234" ∧
    getSessionIdFromCookie cstoreEx "G-ABCDEF1234" = Except.ok "9988" ∧
    getSessionIdFromCookie cstoreEmpty "G-ABCDEF1234" = Except.ok "" :=
  ⟨((getSessionIdFromCookie_spec cstoreEx "G-ABCDEF1234").2.1
      "ABCDEF1234".data rfl).trans rfl,
   ((getSessionIdFromCookie_spec cstoreEx "G-ABCDEF1234").2.2
      "GS1.1.9988.5" rfl).trans rfl,
   (getSessionIdFromCookie_spec cstoreEmpty "G-ABCDEF1234").1 rfl⟩

/-- C8: `isGtagAvailable` is false whenever `window.gtag` is not a
function, and it is true only if `window.gtag` is a function,
`window.google_tag_manager` is defined, and the measurement id is truthy
(non-empty); it is a pure predicate over the ambient globals. -/
theorem isGtagAvailable_spec (env : Env) (m : String) :
    (env.gtagIsFunction = false → isGtagAvailable env m = false) ∧
    (isGtagAvailable env m = true →
      env.gtagIsFunction = true ∧ env.gtmDefined = true ∧ m ≠ "") := by
  constructor
  · intro h
    simp [isGtagAvailable, h]
  · intro h
    simp only [isGtagAvailable, Bool.and_eq_true, bne_iff_ne, ne_eq] at h
    exact ⟨h.1.1, h.1.2, h.2⟩

/-- C8 witness: with `gtag` not a function availability is false even with
everything else in place; a fully configured environment with a non-empty
id satisfies all three conditions. -/
theorem isGtagAvailable_spec_witness :
    isGtagAvailable envUnavailable "G-ABCDEF1234" = false ∧
    (envLive.gtagIsFunction = true ∧ envLive.gtmDefined = true ∧
      "G-ABCDEF1234" ≠ "") :=
  ⟨(isGtagAvailable_spec envUnavailable "G-ABCDEF1234").1 rfl,
   (isGtagAvailable_spec envLive "G-ABCDEF1234").2 rfl⟩

/-- Any settled result of the gtag-wrapper promise is a resolution, never a
rejection. -/
lemma gtagGetPromise_resolves (b : GtagBehavior) (t : Nat)
    (o : Except Unit String) (h : gtagGetPromise b = some (t, o)) :
    ∃ v, o = Except.ok v := by
  cases b <;> simp [gtagGetPromise] at h
  · exact ⟨"", h.2.symm⟩
  · exact ⟨_, h.2.symm⟩

/-- C3: the live-API wrappers never reject: whenever their promise settles
the outcome is a resolution; a synchronous throw is caught (with a warning)
and resolved as `""` immediately, and a callback firing at time `d` with
value `v` resolves `v || ''` (for the string model, `v` itself, with falsy
meaning empty).  In the promise model `Option (Nat × outcome)` a promise
settles at most once by construction, which is the code's
resolve-at-most-once discipline. -/
theorem gtag_wrappers_resolve (env : Env) (m : String) :
    (∀ t o, getClientIdFromGtag env m = some (t, o) → ∃ v, o = Except.ok v) ∧
    (∀ t o, getSessionIdFromGtag env m = some (t, o) → ∃ v, o = Except.ok v) ∧
    (env.clientIdBehavior = GtagBehavior.throws →
      getClientIdFromGtag env m = some (0, Except.ok "")) ∧
    (∀ d v, env.clientIdBehavior = GtagBehavior.callback d v →
      getClientIdFromGtag env m = some (d, Except.ok (if v = "" then "" else v))) ∧
    (env.sessionIdBehavior = GtagBehavior.throws →
      getSessionIdFromGtag env m = some (0, Except.ok "")) ∧
    (∀ d v, env.sessionIdBehavior = GtagBehavior.callback d v →
      getSessionIdFromGtag env m = some (d, Except.ok (if v = "" then "" else v))) := by
  refine ⟨fun t o h => gtagGetPromise_resolves _ t o h,
    fun t o h => gtagGetPromise_resolves _ t o h,
    fun h => ?_, fun d v h => ?_, fun h => ?_, fun d v h => ?_⟩ <;>
    simp [getClientIdFromGtag, getSessionIdFromGtag, gtagGetPromise, h]

/-- C3 witness: a synchronously-throwing gtag resolves both wrappers with
`""` at once; a callback firing at 10 with `cid123` resolves with that
value, and that settled outcome is a resolution. -/
theorem gtag_wrappers_resolve_witness :
    getClientIdFromGtag envThrows "G-ABCDEF1234" = some (0, Except.ok "") ∧
    getSessionIdFromGtag envThrows "G-ABCDEF1234" = some (0, Except.ok "") ∧
    getClientIdFromGtag envLive "G-ABCDEF1234" = some (10, Except.ok "cid123") ∧
    (∃ v, (Except.ok "cid123" : Except Unit String) = Except.ok v) :=
  ⟨(gtag_wrappers_resolve envThrows "G-ABCDEF1234").2.2.1 rfl,
   (gtag_wrappers_resolve envThrows "G-ABCDEF1234").2.2.2.2.1 rfl,
   ((gtag_wrappers_resolve envLive "G-ABCDEF1234").2.2.2.1 10 "cid123" rfl).trans rfl,
   (gtag_wrappers_resolve envLive "G-ABCDEF1234").1 10 (Except.ok "cid123") rfl⟩

/-- C1: both resolvers follow the three-step algorithm.  With gtag
unavailable they return the corresponding cookie accessor's result
directly.  With gtag available, a non-empty resolution of the race is
returned as is — the conclusion `Except.ok v` does not mention the store,
so the cookie is not consulted — and in every other case (the race resolves
empty, or rejects and is caught) the cookie accessor's result is
returned. -/
theorem resolvers_three_step (env : Env) (store : CookieStore) (m : String)
    (timeout : Nat) :
    (isGtagAvailable env m = false →
      (getClientId env store m timeout).2 = getClientIdFromCookie store ∧
      (getSessionId env store m timeout).2 = getSessionIdFromCookie store m) ∧
    (isGtagAvailable env m = true →
      ((∀ t v, raceTimeout (getClientIdFromGtag env m) timeout = (t, Except.ok v) →
        v ≠ "" → (getClientId env store m timeout).2 = Except.ok v) ∧
       (∀ t o, raceTimeout (getClientIdFromGtag env m) timeout = (t, o) →
        (o = Except.ok "" ∨ ∃ e, o = Except.error e) →
        (getClientId env store m timeout).2 = getClientIdFromCookie store) ∧
       (∀ t v, raceTimeout (getSessionIdFromGtag env m) timeout = (t, Except.ok v) →
        v ≠ "" → (getSessionId env store m timeout).2 = Except.ok v) ∧
       (∀ t o, raceTimeout (getSessionIdFromGtag env m) timeout = (t, o) →
        (o = Except.ok "" ∨ ∃ e, o = Except.error e) →
        (getSessionId env store m timeout).2 = getSessionIdFromCookie store m))) := by
  constructor
  · intro h
    constructor
    · simp [getClientId, h]
    · simp [getSessionId, h]
  · intro h
    refine ⟨fun t v hr hne => ?_, fun t o hr ho => ?_,
      fun t v hr hne => ?_, fun t o hr ho => ?_⟩
    · simp only [getClientId, h, if_true]
      rw [hr]
      show (if v = "" then (t, getClientIdFromCookie store)
        else (t, Except.ok v)).2 = Except.ok v
      rw [if_neg hne]
    · simp only [getClientId, h, if_true]
      rw [hr]
      rcases ho with rfl | ⟨e, rfl⟩
      · show (if "" = "" then (t, getClientIdFromCookie store)
          else (t, Except.ok "")).2 = getClientIdFromCookie store
        rw [if_pos rfl]
      · rfl
    · simp only [getSessionId, h, if_true]
      rw [hr]
      show (if v = "" then (t, getSessionIdFromCookie store m)
        else (t, Except.ok v)).2 = Except.ok v
      rw [if_neg hne]
    · simp only [getSessionId, h, if_true]
      rw [hr]
      rcases ho with rfl | ⟨e, rfl⟩
      · show (if "" = "" then (t, getSessionIdFromCookie store m)
          else (t, Except.ok "")).2 = getSessionIdFromCookie store m
        rw [if_pos rfl]
      · rfl

/-- C1 witness: with gtag unavailable both resolvers give the cookie
result; with a prompt non-empty callback the callback value is returned;
with an empty callback value the cookie fallback is used. -/
theorem resolvers_three_step_witness :
    (getClientId envUnavailable cstoreEx "G-ABCDEF1234" 100).2 =
      getClientIdFromCookie cstoreEx ∧
    (getClientId envLive cstoreEx "G-ABCDEF1234" 100).2 = Except.ok "cid123" ∧
    (getSessionId envLive cstoreEx "G-ABCDEF1234" 100).2 = Except.ok "sid456" ∧
    (getClientId envEmptyCb cstoreEx "G-ABCDEF1234" 100).2 =
      getClientIdFromCookie cstoreEx ∧
    (getSessionId envEmptyCb cstoreEx "G-ABCDEF1234" 100).2 =
      getSessionIdFromCookie cstoreEx "G-ABCDEF1234" :=
  ⟨((resolvers_three_step envUnavailable cstoreEx "G-ABCDEF1234" 100).1 rfl).1,
   ((resolvers_three_step envLive cstoreEx "G-ABCDEF1234" 100).2 rfl).1
      10 "cid123" rfl (by decide),
   ((resolvers_three_step envLive cstoreEx "G-ABCDEF1234" 100).2 rfl).2.2.1
      10 "sid456" rfl (by decide),
   ((resolvers_three_step envEmptyCb cstoreEx "G-ABCDEF1234" 100).2 rfl).2.1
      10 (Except.ok "") rfl (Or.inl rfl),
   ((resolvers_three_step envEmptyCb cstoreEx "G-ABCDEF1234" 100).2 rfl).2.2.2
      10 (Except.ok "") rfl (Or.inl rfl)⟩

/-- C2: with gtag available but the callback never firing, the timer branch
of the race settles at exactly `timeout` with `""`, so `getClientId`
terminates then and resolves to the cookie fallback value instead of
suspending indefinitely. -/
theorem getClientId_timeout_fallback (env : Env) (store : CookieStore)
    (m : String) (timeout : Nat) (hav : isGtagAvailable env m = true)
    (hn : env.clientIdBehavior = GtagBehavior.never) :
    getClientId env store m timeout = (timeout, getClientIdFromCookie store) := by
  simp only [getClientId, hav, if_true, getClientIdFromGtag, hn,
    gtagGetPromise, raceTimeout]

/-- C2 witness: with a never-firing callback and `timeout = 50`,
`getClientId` settles at time 50 with the cookie fallback value. -/
theorem getClientId_timeout_fallback_witness :
    getClientId envNever cstoreEx "G-ABCDEF1234" 50 =
      (50, getClientIdFromCookie cstoreEx) :=
  getClientId_timeout_fallback envNever cstoreEx "G-ABCDEF1234" 50 rfl rfl

/-- C4: on every successful run of the combined accessor, each `source` tag
is one of the three tag strings — `gtag-api` (the code's spelling of the
spec's live-api tag), `cookie`, `not-found` — and is computed post hoc:
non-empty value with gtag available gives `gtag-api`, non-empty value with
gtag unavailable gives `cookie`, empty value gives `not-found`. -/
theorem getGA4Identifiers_source (env : Env) (store : CookieStore)
    (m : String) (timeout : Nat) (t : Nat) (r : Identifiers)
    (h : getGA4Identifiers env store m timeout = (t, Except.ok r)) :
    (r.source.clientId = "gtag-api" ∨ r.source.clientId = "cookie" ∨
      r.source.clientId = "not-found") ∧
    (r.source.sessionId = "gtag-api" ∨ r.source.sessionId = "cookie" ∨
      r.source.sessionId = "not-found") ∧
    r.source.clientId = (if r.clientId = "" then "not-found"
      else if isGtagAvailable env m then "gtag-api" else "cookie") ∧
    r.source.sessionId = (if r.sessionId = "" then "not-found"
      else if isGtagAvailable env m then "gtag-api" else "cookie") := by
  unfold getGA4Identifiers at h
  rcases hc : getClientId env store m timeout with ⟨tc, rc⟩
  rcases hs : getSessionId env store m timeout with ⟨ts, rs⟩
  rw [hc, hs] at h
  cases rc with
  | error e => cases rs <;> simp at h
  | ok c =>
    cases rs with
    | error e => simp at h
    | ok s =>
      simp only [Prod.mk.injEq, Except.ok.injEq] at h
      obtain ⟨-, hr⟩ := h
      subst hr
      refine ⟨?_, ?_, rfl, rfl⟩ <;> split_ifs <;> simp

/-- C4 witness: a live run with both callbacks answering non-empty values
tags both identifiers `gtag-api`. -/
theorem getGA4Identifiers_source_witness :
    (identsLive.source.clientId = "gtag-api" ∨
      identsLive.source.clientId = "cookie" ∨
      identsLive.source.clientId = "not-found") ∧
    (identsLive.source.sessionId = "gtag-api" ∨
      identsLive.source.sessionId = "cookie" ∨
      identsLive.source.sessionId = "not-found") ∧
    identsLive.source.clientId = (if identsLive.clientId = "" then "not-found"
      else if isGtagAvailable envLive "G-ABCDEF1234" then "gtag-api" else "cookie") ∧
    identsLive.source.sessionId = (if identsLive.sessionId = "" then "not-found"
      else if isGtagAvailable envLive "G-ABCDEF1234" then "gtag-api" else "cookie") :=
  getGA4Identifiers_source envLive cstoreEx "G-ABCDEF1234" 100 10 identsLive rfl

/-- C9: the synchronous accessor is a plain function that never consults
the ambient gtag globals (its result is the same for any two environments)
and returns exactly the two cookie accessors' values, tagging a non-empty
value `cookie` and an empty one `not-found`. -/
theorem getGA4IdentifiersSync_spec (env env2 : Env) (store : CookieStore)
    (m : String) :
    getGA4IdentifiersSync env store m = getGA4IdentifiersSync env2 store m ∧
    (∀ c s, getClientIdFromCookie store = Except.ok c →
      getSessionIdFromCookie store m = Except.ok s →
      getGA4IdentifiersSync env store m = Except.ok
        { clientId := c, sessionId := s,
          source := { clientId := if c = "" then "not-found" else "cookie",
                      sessionId := if s = "" then "not-found" else "cookie" } }) := by
  refine ⟨rfl, fun c s hc hs => ?_⟩
  unfold getGA4IdentifiersSync
  rw [hc, hs]

/-- C9 witness: on the example store the sync accessor ignores the
environment and returns the two cookie-derived values tagged `cookie`. -/
theorem getGA4IdentifiersSync_spec_witness :
    getGA4IdentifiersSync envLive cstoreEx "G-ABCDEF1234" =
      getGA4IdentifiersSync envUnavailable cstoreEx "G-ABCDEF1234" ∧
    getGA4IdentifiersSync envLive cstoreEx "G-ABCDEF1234" =
      Except.ok identsSync :=
  ⟨(getGA4IdentifiersSync_spec envLive envUnavailable cstoreEx "G-ABCDEF1234").1,
   ((getGA4IdentifiersSync_spec envLive envUnavailable cstoreEx "G-ABCDEF1234").2
      "1234567890.1111111111" "9988" rfl rfl).trans rfl⟩

/-- C10: although the sync accessor reads each cookie twice — once for the
value and once for the tag — over a fixed store the two reads agree, so on
every successful run the value and its tag are consistent: non-empty iff
tagged `cookie`, empty iff tagged `not-found`, for both identifiers. -/
theorem sync_value_source_consistent (env : Env) (store : CookieStore)
    (m : String) (r : Identifiers)
    (h : getGA4IdentifiersSync env store m = Except.ok r) :
    (r.clientId ≠ "" ↔ r.source.clientId = "cookie") ∧
    (r.clientId = "" ↔ r.source.clientId = "not-found") ∧
    (r.sessionId ≠ "" ↔ r.source.sessionId = "cookie") ∧
    (r.sessionId = "" ↔ r.source.sessionId = "not-found") := by
  unfold getGA4IdentifiersSync at h
  cases hc : getClientIdFromCookie store with
  | error e => rw [hc] at h; exact absurd h (by simp)
  | ok c =>
    rw [hc] at h
    cases hs : getSessionIdFromCookie store m with
    | error e => rw [hs] at h; exact absurd h (by simp)
    | ok s =>
      rw [hs] at h
      simp only [Except.ok.injEq] at h
      subst h
      refine ⟨?_, ?_, ?_, ?_⟩ <;>
        by_cases h0 : c = "" <;> by_cases h1 : s = "" <;> simp [h0, h1]

/-- C10 witness: on the example store the sync result has both values
non-empty and both tags `cookie`, and the four equivalences hold. -/
theorem sync_value_source_consistent_witness :
    (identsSync.clientId ≠ "" ↔ identsSync.source.clientId = "cookie") ∧
    (identsSync.clientId = "" ↔ identsSync.source.clientId = "not-found") ∧
    (identsSync.sessionId ≠ "" ↔ identsSync.source.sessionId = "cookie") ∧
    (identsSync.sessionId = "" ↔ identsSync.source.sessionId = "not-found") :=
  sync_value_source_consistent envLive cstoreEx "G-ABCDEF1234" identsSync rfl

end Ga4
